import Mathlib

/-
Verification development for the voice-bridge repository.

The development shallowly embeds the audio-processing core of the two
bridge servers:

  * AudioBridge (src/server/server.js): mu-law codec tables, the
    exponential smoothing filter, and the connection cleanup logic.
  * AI-Meet backend (src/AI-Meet Backend/server.js): its own mu-law
    encode/decode tables, the linear-interpolation resampler, and the
    per-frame relay handlers for both directions.

JavaScript numbers are modelled as follows: integer-valued bit
manipulation is carried out on Nat/Int (the JS values involved stay well
inside the exactly-representable range of doubles, and the 32-bit
semantics of the JS bitwise operators is noted wherever it matters);
genuinely fractional arithmetic (the resampler and the smoother) is
modelled on the rationals, with JS Math.round x rendered as
Int.floor (x + 1/2) (JS rounds half toward positive infinity) and
JS Math.floor as Int.floor.
-/

set_option maxRecDepth 8000


/-- Exponent finder shared by both linear-to-mu-law encoders.
AudioBridge (src/server/server.js lines 69-74) walks the list
[0x4000, 0x2000, 0x1000, 0x800, 0x400, 0x200, 0x100] starting from
exponent 7 and decrements until the biased sample reaches the entry; the
AI-Meet backend (lines 40-41) runs the equivalent for-loop halving
exp_lut from 0x4000 while decrementing exponent from 7 down to 0.  Both
loops compute the if-chain below. -/
def ulawExponent (biased : ℕ) : ℕ :=
  if 0x4000 ≤ biased then 7
  else if 0x2000 ≤ biased then 6
  else if 0x1000 ≤ biased then 5
  else if 0x800 ≤ biased then 4
  else if 0x400 ≤ biased then 3
  else if 0x200 ≤ biased then 2
  else if 0x100 ≤ biased then 1
  else 0

/-- AudioBridge ulawToLinearSlow (src/server/server.js lines 44-56).
JS computes v = ~ulawByte & 0xff, which for a byte equals
Nat.xor (Nat.land ulawByte 0xff) 0xff; the shifts are on small
nonnegative values so they agree with Nat shifts.  The result (at most
32124 in magnitude) is stored into an Int16Array without wrapping, and
JS negative zero stores as 0, which matches Int negation. -/
def ulawToLinearSlow (ulawByte : ℕ) : ℤ :=
  let v := Nat.xor (Nat.land ulawByte 0xff) 0xff
  let sign := Nat.land v 0x80
  let exponent := Nat.land (v >>> 4) 0x07
  let mantissa := Nat.land v 0x0f
  let shifted : ℕ := ((mantissa <<< 3) + 0x84) <<< exponent
  let sample : ℤ := (shifted : ℤ) - 0x84
  if sign ≠ 0 then -sample else sample

/-- AudioBridge linearToUlawSlow (src/server/server.js lines 58-78).
The argument is the already-rounded integer sample, so the JS
Math.round is the identity here.  For samples clamped into
[-32768, 32767], the JS expression (sample >> 8) & 0x80 (32-bit
arithmetic shift) equals 0x80 exactly when the sample is negative.
The final ~x & 0xff on x = sign | exponent << 4 | mantissa <= 0xff is
Nat.xor x 0xff. -/
def linearToUlawSlow (sample0 : ℤ) : ℕ :=
  let sample := max (-32768) (min 32767 sample0)
  let sign := if sample < 0 then 0x80 else 0
  let sample1 := if sign ≠ 0 then -sample else sample
  let sample2 := if sample1 > 32635 then (32635 : ℤ) else sample1
  let biased := (sample2 + 0x84).toNat
  let exponent := ulawExponent biased
  let mantissa := Nat.land (biased >>> (exponent + 3)) 0x0f
  Nat.xor (Nat.lor sign (Nat.lor (exponent <<< 4) mantissa)) 0xff

/-- AudioBridge fast decode (src/server/server.js lines 29-32 and 81-83):
ulawToLinearTable[i] = ulawToLinearSlow(i) for i in [0,255], and
ulawToLinear(b) returns the table entry for the byte b. -/
def ulawToLinear (ulawByte : ℕ) : ℤ :=
  ulawToLinearSlow ulawByte

/-- AudioBridge fast encode (src/server/server.js lines 35-39 and 85-88):
linearToUlawTable[i] = linearToUlawSlow(i - 32768) for i in [0,65535],
and linearToUlaw(sample) looks up index
Math.max(0, Math.min(65535, sample + 32768)). -/
def linearToUlaw (sample : ℤ) : ℕ :=
  let index := max 0 (min 65535 (sample + 32768))
  linearToUlawSlow (index - 32768)

/-- Modelled from the spec, section 4.1: the mu-law to linear formula
v = (~b) & 0xFF, sign = v & 0x80, exponent = (v >> 4) & 0x07,
mantissa = v & 0x0F, sample = ((mantissa << 3) + 0x84) << exponent
minus 0x84, negated when sign is set.  Used as the reference against
which both in-repository decode-table constructions are compared. -/
def specMuLawDecode (b : ℕ) : ℤ :=
  let v := Nat.xor (Nat.land b 0xff) 0xff
  let sign := Nat.land v 0x80
  let exponent := Nat.land (v >>> 4) 0x07
  let mantissa := Nat.land v 0x0f
  let sample : ℤ := ((((mantissa <<< 3) + 0x84) <<< exponent : ℕ) : ℤ) - 0x84
  if sign ≠ 0 then -sample else sample

/-- AI-Meet backend decode table (src/AI-Meet Backend/server.js lines
66-82).  JS computes val = ~i without masking; since the three reads of
val are (val & 0x80), ((val >> 4) & 0x07) and (val & 0x0F), and the
32-bit arithmetic shift satisfies (~i) >> 4 = ~(i >> 4), each read
agrees with the same read of (~i) & 0xff, rendered here as
Nat.xor (Nat.land i 0xff) 0xff.  The body then differs from the
AudioBridge decoder: val = mantissa << (exponent + 3); val += 0x84;
if exponent == 0 then val -= 4. -/
def pcmuDecodeTable (i : ℕ) : ℤ :=
  let v := Nat.xor (Nat.land i 0xff) 0xff
  let sign := Nat.land v 0x80
  let exponent := Nat.land (v >>> 4) 0x07
  let mantissa := Nat.land v 0x0f
  let val : ℤ := ((mantissa <<< (exponent + 3) : ℕ) : ℤ) + 0x84 -
    (if exponent = 0 then 4 else 0)
  if sign ≠ 0 then -val else val

/-- AI-Meet backend encode table (src/AI-Meet Backend/server.js lines
26-49): entry i (for i in [0,65535]) encodes the signed sample
i - 32768.  As in linearToUlawSlow, (sample >> 8) & 0x80 equals 0x80
exactly when the int16 sample is negative, and the exp_lut for-loop is
ulawExponent. -/
def pcmuEncodeTable (i : ℕ) : ℕ :=
  let sample : ℤ := (i : ℤ) - 32768
  let sign := if sample < 0 then 0x80 else 0
  let absSample0 := if sign ≠ 0 then -sample else sample
  let absSample := if absSample0 > 32635 then (32635 : ℤ) else absSample0
  let biased := (absSample + 0x84).toNat
  let exponent := ulawExponent biased
  let mantissa := Nat.land (biased >>> (exponent + 3)) 0x0f
  Nat.xor (Nat.lor sign (Nat.lor (exponent <<< 4) mantissa)) 0xff

/-- Recursion underlying AudioBridge applySmoothingFilter
(src/server/server.js lines 91-108): y[0] = alpha * x[0] +
(1 - alpha) * prev and y[i] = alpha * x[i] + (1 - alpha) * y[i-1],
returning the output list together with its last element (or prev when
the input is empty, matching the early return of the source). -/
def smoothAux (alpha prev : ℚ) : List ℚ → List ℚ × ℚ
  | [] => ([], prev)
  | x :: xs =>
    let y := alpha * x + (1 - alpha) * prev
    let rest := smoothAux alpha y xs
    (y :: rest.1, rest.2)

/-- AudioBridge applySmoothingFilter (src/server/server.js lines
91-108) with the smoothing factor alpha = 0.95 of line 95.  On an empty
input the source returns the input array and previousSample unchanged,
which is the base case of smoothAux. -/
def applySmoothingFilter (samples : List ℚ) (previousSample : ℚ) :
    List ℚ × ℚ :=
  smoothAux 0.95 previousSample samples

/-- AI-Meet backend resampleAudio (src/AI-Meet Backend/server.js lines
98-126), over exact rationals.  ratio = inputSampleRate /
outputSampleRate; the output has floor(length / ratio) samples; output
sample i interpolates linearly between input samples floor(i * ratio)
and its successor when the successor exists, is clamped into the int16
range and rounded (JS Math.round is floor of x + 1/2); otherwise the
source falls back to inputSamples[index] || 0, which List.getD with
default 0 renders exactly. -/
def resampleAudio (inputSamples : List ℤ)
    (inputSampleRate outputSampleRate : ℚ) : List ℤ :=
  let ratio := inputSampleRate / outputSampleRate
  let outputLength := Int.toNat ⌊(inputSamples.length : ℚ) / ratio⌋
  if outputLength = 0 then [] else
  (List.range outputLength).map (fun (i : ℕ) =>
    let inputIndex : ℚ := (i : ℚ) * ratio
    let index := Int.toNat ⌊inputIndex⌋
    let fraction : ℚ := inputIndex - (⌊inputIndex⌋ : ℤ)
    if index + 1 < inputSamples.length then
      let sample1 : ℚ := (inputSamples.getD index 0 : ℤ)
      let sample2 : ℚ := (inputSamples.getD (index + 1) 0 : ℤ)
      let interpolated := sample1 + (sample2 - sample1) * fraction
      ⌊max (-32768) (min 32767 interpolated) + 1 / 2⌋
    else
      inputSamples.getD index 0)

/-- Maximum absolute sample amplitude, as computed by the AI-Meet
backend client handler (src/AI-Meet Backend/server.js line 325):
Math.max over the absolute values of the samples (nonnegative, so the
fold with base 0 agrees with JS Math.max on every nonempty list; the
handler only reaches this computation on a nonempty frame). -/
def maxAmplitude (samples : List ℤ) : ℕ :=
  (samples.map Int.natAbs).foldr max 0

/-- AI-Meet backend convertPcm16ToPcmu (src/AI-Meet Backend/server.js
lines 52-63): each int16 sample is shifted to the unsigned index
sample + 32768, clamped into [0, 65535], and looked up in the encode
table. -/
def convertPcm16ToPcmu (pcm16Samples : List ℤ) : List ℕ :=
  pcm16Samples.map (fun s =>
    pcmuEncodeTable (Int.toNat (max 0 (min 65535 (s + 32768)))))

/-- Variation check of the AI-Meet backend upstream handler
(src/AI-Meet Backend/server.js line 241): some byte differs from the
first byte.  On the empty list the JS some returns false, as does
List.any. -/
def pcmuHasVariation (pcmuBytes : List ℕ) : Bool :=
  pcmuBytes.any (fun b => !(b == pcmuBytes.headD 0))

/-- AI-Meet backend client message handler for a binary frame on an
active session (src/AI-Meet Backend/server.js lines 301-360), returning
the PCM16 sample list sent upstream, or none when the frame is dropped.
The source guards in order: byteLength > 0; hasValidData (some byte is
neither 0x7F nor 0xFF); maxAmplitude of the decoded PCM16 is not 0;
the upsampled result is nonempty; then sends the upsampled buffer. -/
def clientFrameToUpstream (frame : List ℕ) : Option (List ℤ) :=
  if 0 < frame.length then
    if frame.any (fun b => !(b == 0x7f) && !(b == 0xff)) then
      if maxAmplitude (frame.map pcmuDecodeTable) == 0 then none
      else
        if (resampleAudio (frame.map pcmuDecodeTable) 8000 48000).length == 0 then none
        else some (resampleAudio (frame.map pcmuDecodeTable) 8000 48000)
    else none
  else none

/-- AI-Meet backend upstream message handler for a binary frame
(src/AI-Meet Backend/server.js lines 206-251), returning the PCMU byte
list sent to the client, or none when the frame is dropped.  The source
guards in order: hasValidAudio (some sample of magnitude above 100);
the downsampled buffer is nonempty; the PCMU buffer is nonempty;
hasVariation (some PCMU byte differs from the first); then sends the
PCMU buffer. -/
def ultravoxFrameToClient (inputSamples : List ℤ) : Option (List ℕ) :=
  if inputSamples.any (fun s => 100 < s.natAbs) then
    if (resampleAudio inputSamples 48000 8000).length == 0 then none
    else
      if (convertPcm16ToPcmu (resampleAudio inputSamples 48000 8000)).length == 0 then
        none
      else
        if pcmuHasVariation (convertPcm16ToPcmu (resampleAudio inputSamples 48000 8000)) then
          some (convertPcm16ToPcmu (resampleAudio inputSamples 48000 8000))
        else none
  else none

/-- Boolean abstraction of the per-session state the lifecycle claims
are about: whether each endpoint socket is open and whether the session
is still in the connection registry (the connections Map of the
AudioBridge, the clientToUltravox Map of the AI-Meet backend). -/
structure SessionState where
  clientOpen : Bool
  upstreamOpen : Bool
  inRegistry : Bool
deriving DecidableEq

/-- The two endpoints of a session. -/
inductive Endpoint where
  | client
  | upstream
deriving DecidableEq

/-- AudioBridge cleanupConnection (src/server/server.js lines 384-398):
when the connection id is still in the registry it closes the upstream
socket (a ws close on an already-closed socket is a no-op) and deletes
the registry entry; when the id has already been removed it does
nothing.  The client socket is never touched. -/
def cleanupConnection (s : SessionState) : SessionState :=
  if s.inRegistry then { s with upstreamOpen := false, inRegistry := false } else s

/-- AudioBridge handleConnection shutdown path (src/server/server.js
lines 306-318): the awaited promise resolves when either endpoint emits
close; a normal close throws nothing, so the catch block is skipped and
the finally block runs cleanupConnection. -/
def audioBridgeAfterClose (e : Endpoint) (s : SessionState) : SessionState :=
  cleanupConnection (match e with
    | Endpoint.client => { s with clientOpen := false }
    | Endpoint.upstream => { s with upstreamOpen := false })

/-- AI-Meet backend close handlers.  The clientWs close handler
(src/AI-Meet Backend/server.js lines 362-369) closes the upstream
socket and deletes the map entry when the entry is present; the
ultravoxWs close handler (lines 280-287) closes the client socket when
it is still open and deletes the map entry. -/
def backendAfterClose (e : Endpoint) (s : SessionState) : SessionState :=
  match e with
  | Endpoint.client =>
    let s1 := { s with clientOpen := false }
    if s1.inRegistry then { s1 with upstreamOpen := false, inRegistry := false } else s1
  | Endpoint.upstream =>
    let s1 := { s with upstreamOpen := false }
    let s2 := if s1.clientOpen then { s1 with clientOpen := false } else s1
    { s2 with inRegistry := false }

/-- WebSocket ready states, as read by the AI-Meet backend timeout
handler. -/
inductive WsReadyState where
  | connecting
  | opened
  | closing
  | closed
deriving DecidableEq

/-- Observable actions a connect-failure handler performs toward the
session sockets. -/
inductive RelayAction where
  | sendJson (message : String)
  | closeWithCode (code : ℕ) (reason : String)
  | closeNoCode
  | closeUpstream
deriving DecidableEq

/-- AudioBridge upstream HTTP call timeout: fetch is passed
timeout: 10000 (src/server/server.js line 161). -/
def audioBridgeHttpTimeoutMs : ℕ := 10000

/-- AudioBridge upstream WebSocket open timeout: the open wait rejects
after 15000 ms (src/server/server.js lines 276-278). -/
def audioBridgeWsOpenTimeoutMs : ℕ := 15000

/-- AI-Meet backend connectionTimeout delay for the upstream WebSocket
open: 10000 ms (src/AI-Meet Backend/server.js line 197).  The backend
fetch of the call-creation endpoint is given no timeout. -/
def backendWsOpenTimeoutMs : ℕ := 10000

/-- AudioBridge handleConnection catch block (src/server/server.js
lines 311-315), reached when the HTTP call or the WebSocket open wait
rejects, including on either timeout: when the client socket is open it
is closed with code 1011 and the failure reason; no JSON message is
sent to the client on this path. -/
def audioBridgeConnectFailureActions (clientOpen : Bool) (message : String) :
    List RelayAction :=
  if clientOpen then [RelayAction.closeWithCode 1011 message] else []

/-- AI-Meet backend connectionTimeout handler (src/AI-Meet
Backend/server.js lines 190-197): when the upstream socket is still
CONNECTING after 10 s it closes the upstream socket, sends the error
JSON to the client, and closes the client socket without a code. -/
def backendConnectionTimeoutActions (upstreamState : WsReadyState) :
    List RelayAction :=
  if upstreamState = WsReadyState.connecting then
    [RelayAction.closeUpstream,
      RelayAction.sendJson "Ultravox connection timeout",
      RelayAction.closeNoCode]
  else []

/-- Whether an action sends a JSON message to the client. -/
def isErrorJson : RelayAction → Bool
  | RelayAction.sendJson _ => true
  | _ => false

/-- Whether an action closes the client socket with an explicit
(error) close code. -/
def isErrorCodeClose : RelayAction → Bool
  | RelayAction.closeWithCode _ _ => true
  | _ => false

/-- Claim C1: for every byte b in [0,255], encoding the decoded value
round-trips bit-exactly: linearToUlaw (ulawToLinear b) = b.  REFUTED at
b = 0x7F: that byte decodes to (negative) zero, and zero re-encodes as
0xFF, not 0x7F. -/
theorem c1_roundtrip_counterexample :
    linearToUlaw (ulawToLinear 0x7f) = 0xff ∧ (0xff : ℕ) ≠ 0x7f := by
  decide

/-- Claim C1 (amended): for every byte b in [0,255] other than 0x7F,
encoding the decoded value round-trips bit-exactly:
linearToUlaw (ulawToLinear b) = b.  The sole exception 0x7F (mu-law
negative zero) decodes to 0 and re-encodes as 0xFF. -/
theorem c1_roundtrip_except_negative_zero :
    ∀ b : ℕ, b < 256 → b ≠ 0x7f → linearToUlaw (ulawToLinear b) = b := by
  decide

theorem c1_roundtrip_witness :
    (0 : ℕ) < 256 ∧ (0 : ℕ) ≠ 0x7f ∧ linearToUlaw (ulawToLinear 0) = 0 :=
  ⟨by decide, by decide, c1_roundtrip_except_negative_zero 0 (by decide) (by decide)⟩

/-- Claim C3: for every byte b, the mu-law decode table entry equals the
spec formula, for BOTH decode-table constructions in the repository.
REFUTED for the AI-Meet backend construction: at b = 255 the backend
table holds 128 while the spec formula gives 0. -/
theorem c3_decode_table_counterexample :
    pcmuDecodeTable 255 = 128 ∧ specMuLawDecode 255 = 0 := by
  decide

/-- Claim C3 (amended): for every byte b in [0,255], the AudioBridge
decode-table entry ulawToLinearSlow b equals the spec formula
specMuLawDecode b, and lies in [-32124, 32124].  The AI-Meet backend
construction pcmuDecodeTable does not follow the formula (its entry at
byte 255 is 128, not 0). -/
theorem c3_audiobridge_decode_matches_spec :
    ∀ b : ℕ, b < 256 →
      ulawToLinearSlow b = specMuLawDecode b ∧
      -32124 ≤ ulawToLinearSlow b ∧ ulawToLinearSlow b ≤ 32124 := by
  decide

theorem c3_audiobridge_decode_witness :
    (0 : ℕ) < 256 ∧ ulawToLinearSlow 0 = specMuLawDecode 0 ∧
      -32124 ≤ ulawToLinearSlow 0 ∧ ulawToLinearSlow 0 ≤ 32124 :=
  ⟨by decide, (c3_audiobridge_decode_matches_spec 0 (by decide)).1,
    (c3_audiobridge_decode_matches_spec 0 (by decide)).2.1,
    (c3_audiobridge_decode_matches_spec 0 (by decide)).2.2⟩

/-- Claim C9: the fast linear-to-mu-law encoder is total over all
integer inputs: the table index sample + 32768 is clamped into
[0, 65535] before lookup, so the access is always in bounds, and
out-of-range samples encode as if saturated to -32768 or 32767. -/
theorem c9_encoder_total_and_saturating (sample : ℤ) :
    0 ≤ max 0 (min 65535 (sample + 32768)) ∧
    max 0 (min 65535 (sample + 32768)) ≤ 65535 ∧
    linearToUlaw sample = linearToUlawSlow (max (-32768) (min 32767 sample)) := by
  refine ⟨le_max_left 0 _, ?_, ?_⟩
  · omega
  · show linearToUlawSlow (max 0 (min 65535 (sample + 32768)) - 32768) = _
    congr 1
    omega

theorem smoothAux_append (alpha : ℚ) (xs ys : List ℚ) (p : ℚ) :
    smoothAux alpha p (xs ++ ys) =
      ((smoothAux alpha p xs).1 ++ (smoothAux alpha (smoothAux alpha p xs).2 ys).1,
        (smoothAux alpha (smoothAux alpha p xs).2 ys).2) := by
  induction xs generalizing p with
  | nil => simp [smoothAux]
  | cons x xs ih => simp [smoothAux, ih]

/-- Claim C5: for every sample sequence, every split into prefix and
suffix, and every initial previous-sample value, running the
exponential smoother (alpha = 0.95) on the prefix and then on the
suffix with the returned tail carried over yields bit-exactly the same
concatenated output and the same final tail as one call on the whole
sequence. -/
theorem c5_smoother_chunk_invariance (xs ys : List ℚ) (p : ℚ) :
    applySmoothingFilter (xs ++ ys) p =
      ((applySmoothingFilter xs p).1 ++
        (applySmoothingFilter ys (applySmoothingFilter xs p).2).1,
        (applySmoothingFilter ys (applySmoothingFilter xs p).2).2) :=
  smoothAux_append 0.95 xs ys p

theorem resampleAudio_length (inputSamples : List ℤ)
    (inputSampleRate outputSampleRate : ℚ) :
    (resampleAudio inputSamples inputSampleRate outputSampleRate).length =
      Int.toNat ⌊(inputSamples.length : ℚ) /
        (inputSampleRate / outputSampleRate)⌋ := by
  unfold resampleAudio
  by_cases h : Int.toNat ⌊(inputSamples.length : ℚ) /
      (inputSampleRate / outputSampleRate)⌋ = 0
  · simp [h]
  · simp [h]

/-- Claim C7: for every input sample sequence and every pair of
positive rates, the linear-interpolation resampler output has length
exactly the floor of length * outRate / inRate; in particular the
empty input yields the empty output. -/
theorem c7_resampler_length (inputSamples : List ℤ)
    (inputSampleRate outputSampleRate : ℚ)
    (hin : 0 < inputSampleRate) (hout : 0 < outputSampleRate) :
    (resampleAudio inputSamples inputSampleRate outputSampleRate).length =
      Int.toNat ⌊(inputSamples.length : ℚ) * outputSampleRate / inputSampleRate⌋ ∧
    resampleAudio ([] : List ℤ) inputSampleRate outputSampleRate = [] := by
  constructor
  · rw [resampleAudio_length, div_div_eq_mul_div]
  · unfold resampleAudio
    simp

theorem c7_resampler_length_witness :
    0 < (8000 : ℚ) ∧ 0 < (48000 : ℚ) ∧
    (resampleAudio [1, 2, 3] 8000 48000).length = 18 := by
  refine ⟨by norm_num, by norm_num, ?_⟩
  have h := (c7_resampler_length [1, 2, 3] 8000 48000 (by norm_num) (by norm_num)).1
  rw [h]
  norm_num
  rfl

theorem pcmuDecodeTable_ne_zero : ∀ b : ℕ, b < 256 → pcmuDecodeTable b ≠ 0 := by
  decide

theorem le_maxAmplitude (l : List ℤ) (x : ℤ) (hx : x ∈ l) :
    x.natAbs ≤ maxAmplitude l := by
  induction l with
  | nil => cases hx
  | cons y ys ih =>
    rcases List.mem_cons.mp hx with h | h
    · subst h
      exact le_max_left _ _
    · exact le_trans (ih h) (le_max_right _ _)

theorem maxAmplitude_eq_zero (l : List ℤ) (h : ∀ x ∈ l, x = 0) :
    maxAmplitude l = 0 := by
  induction l with
  | nil => rfl
  | cons y ys ih =>
    have hy : y = 0 := h y (List.mem_cons_self y ys)
    simp only [maxAmplitude, List.map_cons, List.foldr_cons, hy]
    have : maxAmplitude ys = 0 := ih (fun x hx => h x (List.mem_cons_of_mem y hx))
    simp only [maxAmplitude] at this
    simp [this]

/-- Claim C6: for every binary frame from the upstream endpoint, if the
PCMU buffer produced by the upstream-to-client transform (48 kHz to
8 kHz downsample, then mu-law encode) has all bytes equal, then no
binary frame is sent to the client for that input. -/
theorem c6_uniform_pcmu_suppressed (inputSamples : List ℤ)
    (h : pcmuHasVariation
      (convertPcm16ToPcmu (resampleAudio inputSamples 48000 8000)) = false) :
    ultravoxFrameToClient inputSamples = none := by
  unfold ultravoxFrameToClient
  simp [h]

/-- Claim C10: client-to-upstream silence is suppressed before
conversion: for every client binary frame whose bytes are all 0x7F or
all 0xFF (or any mix of only those two values), and for every client
binary frame whose decoded PCM16 samples are all zero, nothing is sent
to the upstream endpoint for that frame. -/
theorem c10_client_silence_suppressed (frame : List ℕ)
    (h : (∀ b ∈ frame, b = 0x7f ∨ b = 0xff) ∨
      (∀ b ∈ frame, pcmuDecodeTable b = 0)) :
    clientFrameToUpstream frame = none := by
  unfold clientFrameToUpstream
  rcases h with h | h
  · have hany : frame.any (fun b => !(b == 0x7f) && !(b == 0xff)) = false := by
      simp only [List.any_eq_false]
      intro b hb
      rcases h b hb with rfl | rfl <;> decide
    split_ifs with h1 h2 h3 h4
    · exact absurd h2 (by simp [hany])
    · exact absurd h2 (by simp [hany])
    · exact absurd h2 (by simp [hany])
    · rfl
    · rfl
  · have hzero : maxAmplitude (frame.map pcmuDecodeTable) = 0 := by
      apply maxAmplitude_eq_zero
      intro x hx
      rcases List.mem_map.mp hx with ⟨b, hb, rfl⟩
      exact h b hb
    split_ifs with h1 h2 h3 h4
    · rfl
    · exact absurd h3 (by simp [hzero])
    · exact absurd h3 (by simp [hzero])
    · rfl
    · rfl

theorem c10_client_silence_witness :
    (∀ b ∈ [0x7f, 0xff], b = 0x7f ∨ b = 0xff) ∧
    clientFrameToUpstream [0x7f, 0xff] = none :=
  ⟨by decide, c10_client_silence_suppressed [0x7f, 0xff] (Or.inl (by decide))⟩

/-- Claim C4: for every non-silent 320-byte PCMU binary frame received
from the client of an active session, the upstream endpoint receives
exactly 3840 bytes of PCM16-LE at 48 kHz (1920 samples) produced from
that frame by the client-to-upstream transform (mu-law decode, then
8 kHz to 48 kHz resample). -/
theorem c4_client_frame_upsampled (frame : List ℕ)
    (hlen : frame.length = 320)
    (hbytes : ∀ b ∈ frame, b < 256)
    (hvalid : ∃ b ∈ frame, b ≠ 0x7f ∧ b ≠ 0xff) :
    clientFrameToUpstream frame =
      some (resampleAudio (frame.map pcmuDecodeTable) 8000 48000) ∧
    (resampleAudio (frame.map pcmuDecodeTable) 8000 48000).length = 1920 ∧
    2 * (resampleAudio (frame.map pcmuDecodeTable) 8000 48000).length = 3840 := by
  have hlen1920 : (resampleAudio (frame.map pcmuDecodeTable) 8000 48000).length = 1920 := by
    rw [resampleAudio_length, List.length_map, hlen]
    norm_num
    rfl
  refine ⟨?_, hlen1920, by rw [hlen1920]⟩
  unfold clientFrameToUpstream
  have hpos : 0 < frame.length := by omega
  have hany : frame.any (fun b => !(b == 0x7f) && !(b == 0xff)) = true := by
    rcases hvalid with ⟨b, hb, hb1, hb2⟩
    simp only [List.any_eq_true]
    exact ⟨b, hb, by simp [hb1, hb2]⟩
  have hne : maxAmplitude (frame.map pcmuDecodeTable) ≠ 0 := by
    rcases List.exists_mem_of_length_pos (by omega : 0 < frame.length) with ⟨b, hb⟩
    have hdec : pcmuDecodeTable b ≠ 0 := pcmuDecodeTable_ne_zero b (hbytes b hb)
    have hle : (pcmuDecodeTable b).natAbs ≤ maxAmplitude (frame.map pcmuDecodeTable) :=
      le_maxAmplitude _ _ (List.mem_map.mpr ⟨b, hb, rfl⟩)
    omega
  have hmax : ¬((maxAmplitude (frame.map pcmuDecodeTable) == 0) = true) := by
    simp [hne]
  have hlen0 : ¬(((resampleAudio (frame.map pcmuDecodeTable) 8000 48000).length == 0) = true) := by
    simp [hlen1920]
  rw [if_pos hpos, if_pos hany, if_neg hmax, if_neg hlen0]

theorem c4_client_frame_witness :
    (List.replicate 320 0).length = 320 ∧
    clientFrameToUpstream (List.replicate 320 0) =
      some (resampleAudio ((List.replicate 320 0).map pcmuDecodeTable) 8000 48000) ∧
    (resampleAudio ((List.replicate 320 0).map pcmuDecodeTable) 8000 48000).length = 1920 :=
  ⟨by simp,
    (c4_client_frame_upsampled (List.replicate 320 0) (by simp)
      (by intro b hb; rcases List.eq_of_mem_replicate hb with rfl; decide)
      ⟨0, List.mem_replicate.mpr (by decide), by decide, by decide⟩).1,
    (c4_client_frame_upsampled (List.replicate 320 0) (by simp)
      (by intro b hb; rcases List.eq_of_mem_replicate hb with rfl; decide)
      ⟨0, List.mem_replicate.mpr (by decide), by decide, by decide⟩).2.1⟩

theorem c6_uniform_pcmu_witness :
    pcmuHasVariation
      (convertPcm16ToPcmu (resampleAudio [0, 0, 0, 0, 0, 0] 48000 8000)) = false ∧
    ultravoxFrameToClient [0, 0, 0, 0, 0, 0] = none := by
  have hr : resampleAudio [0, 0, 0, 0, 0, 0] 48000 8000 = [0] := by
    norm_num [resampleAudio, List.range_succ]
  have hp : pcmuHasVariation
      (convertPcm16ToPcmu (resampleAudio [0, 0, 0, 0, 0, 0] 48000 8000)) = false := by
    rw [hr]
    decide
  exact ⟨hp, c6_uniform_pcmu_suppressed [0, 0, 0, 0, 0, 0] hp⟩

/-- Claim C2: whenever either endpoint of a session terminates, the
other endpoint is also closed and the session is removed from the
registry exactly once, in both orders.  The AudioBridge code violates
the claim in the upstream-first order: starting from an active session
(both sockets open, registered), the upstream closing triggers
cleanupConnection, which removes the session from the registry and
closes the upstream socket but leaves the client socket open.  Removal
is nevertheless exactly once (cleanupConnection is idempotent), and the
AI-Meet backend does close the client in the same order. -/
theorem c2_upstream_close_leaves_client_open :
    (audioBridgeAfterClose Endpoint.upstream ⟨true, true, true⟩).clientOpen = true ∧
    (audioBridgeAfterClose Endpoint.upstream ⟨true, true, true⟩).upstreamOpen = false ∧
    (audioBridgeAfterClose Endpoint.upstream ⟨true, true, true⟩).inRegistry = false ∧
    cleanupConnection (audioBridgeAfterClose Endpoint.upstream ⟨true, true, true⟩) =
      audioBridgeAfterClose Endpoint.upstream ⟨true, true, true⟩ ∧
    (audioBridgeAfterClose Endpoint.client ⟨true, true, true⟩).clientOpen = false ∧
    (audioBridgeAfterClose Endpoint.client ⟨true, true, true⟩).upstreamOpen = false ∧
    (backendAfterClose Endpoint.upstream ⟨true, true, true⟩).clientOpen = false ∧
    (backendAfterClose Endpoint.client ⟨true, true, true⟩).upstreamOpen = false := by
  decide

/-- Claim C8: the upstream HTTP request uses a 10 s timeout and the
upstream WebSocket open a 15 s timeout, and on either timing out the
client is sent an error JSON message AND its socket is closed with an
error code.  REFUTED: the AudioBridge timeout path (the one with those
two timeout values) closes the client with code 1011 but sends no JSON
message, and the AI-Meet backend timeout path sends the error JSON but
closes the client without a code. -/
theorem c8_timeout_counterexample :
    ((audioBridgeConnectFailureActions true
      "Connection failed: Ultravox connection timeout").any isErrorJson) = false ∧
    ((backendConnectionTimeoutActions WsReadyState.connecting).any
      isErrorCodeClose) = false := by
  decide

/-- Claim C8 (amended): in the AudioBridge the upstream HTTP request
uses a 10 s timeout and the WebSocket open a 15 s timeout, and when
either times out in a session whose client socket is open, the client
socket is closed with error code 1011 and no error JSON is sent; in the
AI-Meet backend the WebSocket open uses a 10 s timeout, and on timeout
the client is sent an error JSON and closed without an error code. -/
theorem c8_timeout_behavior :
    audioBridgeHttpTimeoutMs = 10000 ∧
    audioBridgeWsOpenTimeoutMs = 15000 ∧
    audioBridgeConnectFailureActions true "Connection failed: Ultravox connection timeout" =
      [RelayAction.closeWithCode 1011 "Connection failed: Ultravox connection timeout"] ∧
    backendWsOpenTimeoutMs = 10000 ∧
    backendConnectionTimeoutActions WsReadyState.connecting =
      [RelayAction.closeUpstream,
        RelayAction.sendJson "Ultravox connection timeout",
        RelayAction.closeNoCode] :=
  ⟨rfl, rfl, rfl, rfl, rfl⟩

